import Mathlib

/-!
Shallow embedding of `src/controllers/weatherController.js` from the
weather-backend repository: the data model of the upstream CWA forecast
document, the city-alias table, and the two request handlers
`getKaohsiungWeather` and `getWeatherByCity`, together with theorems about
the response-normalization transform and the error-mapping policy.

JavaScript semantics that matter here and how they are modelled:
* `process.env.CWA_API_KEY` is a string or `undefined`; `!CWA_API_KEY` is
  true when it is `undefined` or the empty string.  The key is modelled as
  `Option String` and the falsiness test as `isFalsyEnv`.
* Reading a property of `undefined` throws a `TypeError`, which the
  surrounding `try`/`catch` turns into the generic 500 response (the thrown
  error has no `response` field).  Such accesses are modelled with
  `Except Unit`: `records.location` may be absent (modelled `Option`),
  `weatherElements[0]` on an empty list, and `element.time[i]` past the end
  of an element's time list all take the exception path.
* `error.response.data.message || fallback` falls back on any falsy value,
  in particular the empty string; `messageOrFallback` models this.
* `cityMap[cityParam]` is a JavaScript property access: when no own key of
  the object literal matches, it walks the prototype chain and finds the
  `Object.prototype` properties (`"constructor"`, `"__proto__"`, ...),
  whose values are truthy, before ever yielding `undefined`.  For such a
  token the `if (!cwaCity)` guard does not fire and the handler proceeds
  to the outbound call.  `cityMapAccess` models the complete access and
  `protoValueString` the string coercion of an inherited value.
* `axios.get` either resolves with a body (`UpstreamOutcome.ok`), rejects
  with a response attached (`UpstreamOutcome.httpError`), or rejects with
  no response at all (`UpstreamOutcome.networkError`).  The environment is
  a function from the requested `locationName` to an outcome, and each
  handler records which location it requested and how many outbound calls
  it made.
-/

namespace WeatherBackend

/-- `time[i].parameter` of a weather element: `{ parameterName }`. -/
structure Parameter where
  parameterName : String
deriving Repr, DecidableEq

/-- One entry of an element's `time` array. -/
structure TimeWindow where
  startTime : String
  endTime : String
  parameter : Parameter
deriving Repr, DecidableEq

/-- One entry of `location[0].weatherElement`. -/
structure WeatherElement where
  elementName : String
  time : List TimeWindow
deriving Repr, DecidableEq

/-- One entry of `records.location`. -/
structure LocationData where
  locationName : String
  weatherElement : List WeatherElement
deriving Repr, DecidableEq

/-- `response.data.records`.  `location := none` models a JSON document in
which the `location` field is absent altogether (then `location[0]` throws
a `TypeError` in the source), as opposed to `some []`, a present but empty
array (then `location[0]` is `undefined` and the handler returns 404). -/
structure Records where
  datasetDescription : String
  location : Option (List LocationData)
deriving Repr, DecidableEq

/-- The body `error.response.data` of a failed upstream call: an optional
`message` field plus the rest of the raw body, kept opaque. -/
structure UpstreamErrorBody where
  message : Option String
  raw : String
deriving Repr, DecidableEq

/-- Outcome of the single `axios.get` call. -/
inductive UpstreamOutcome where
  | ok (records : Records)
  | httpError (status : Nat) (data : UpstreamErrorBody)
  | networkError
deriving Repr, DecidableEq

/-- One normalized forecast entry pushed onto `weatherData.forecasts`. -/
structure Forecast where
  startTime : String
  endTime : String
  weather : String
  rain : String
  minTemp : String
  maxTemp : String
  comfort : String
  windSpeed : String
deriving Repr, DecidableEq

/-- The `data` object of a success response. -/
structure WeatherData where
  city : String
  updateTime : String
  forecasts : List Forecast
deriving Repr, DecidableEq

/-- A response body: either the success envelope
`{ success: true, data }` or an error envelope
`{ error, message?, details? }`. -/
inductive ResponseBody where
  | success (data : WeatherData)
  | failure (error : String) (message : Option String)
      (details : Option UpstreamErrorBody)
deriving Repr, DecidableEq

/-- Error label of a response body (`""` for a success body). -/
def ResponseBody.errField : ResponseBody → String
  | .success _ => ""
  | .failure e _ _ => e

/-- `message` field of an error body, `none` when the branch omitted it. -/
def ResponseBody.msgField : ResponseBody → Option String
  | .success _ => none
  | .failure _ m _ => m

/-- `details` field of an error body. -/
def ResponseBody.detField : ResponseBody → Option UpstreamErrorBody
  | .success _ => none
  | .failure _ _ d => d

/-- What `res.status(...).json(...)` sent. -/
structure HttpResponse where
  status : Nat
  body : ResponseBody
deriving Repr, DecidableEq

/-- Result of one handler invocation: the `locationName` sent upstream
(`none` when the handler returned before calling out), the number of
outbound calls performed, and the HTTP response. -/
structure HandlerResult where
  requested : Option String
  calls : Nat
  response : HttpResponse
deriving Repr, DecidableEq

/-- JavaScript falsiness of an environment string:
`!CWA_API_KEY` is true when the variable is `undefined` or `""`. -/
def isFalsyEnv : Option String → Bool
  | none => true
  | some s => s == ""

/-- The `cityMap` object literal (lines 124–169 of the controller):
front-end city tokens to canonical CWA location names. -/
def cityMap : List (String × String) :=
  [("taipei", "臺北市"), ("Taipei", "臺北市"),
   ("taoyuan", "桃園市"), ("Taoyuan", "桃園市"),
   ("taichung", "臺中市"), ("Taichung", "臺中市"),
   ("tainan", "臺南市"), ("Tainan", "臺南市"),
   ("kaohsiung", "高雄市"), ("Kaohsiung", "高雄市"),
   ("keelung", "基隆市"), ("Keelung", "基隆市"),
   ("hsinchu", "新竹市"), ("Hsinchu", "新竹市"),
   ("newtaipei", "新北市"), ("NewTaipei", "新北市"),
   ("hsinchucounty", "新竹縣"), ("HsinchuCounty", "新竹縣"),
   ("miaoli", "苗栗縣"), ("Miaoli", "苗栗縣"),
   ("changhua", "彰化縣"), ("Changhua", "彰化縣"),
   ("nantou", "南投縣"), ("Nantou", "南投縣"),
   ("yunlin", "雲林縣"), ("Yunlin", "雲林縣"),
   ("chiayi", "嘉義市"), ("Chiayi", "嘉義市"),
   ("chiayicounty", "嘉義縣"), ("ChiayiCounty", "嘉義縣"),
   ("pingtung", "屏東縣"), ("Pingtung", "屏東縣"),
   ("yilan", "宜蘭縣"), ("Yilan", "宜蘭縣"),
   ("hualien", "花蓮縣"), ("Hualien", "花蓮縣"),
   ("taitung", "臺東縣"), ("Taitung", "臺東縣"),
   ("penghu", "澎湖縣"), ("Penghu", "澎湖縣"),
   ("kinmen", "金門縣"), ("Kinmen", "金門縣"),
   ("lienchiang", "連江縣"), ("Lienchiang", "連江縣")]

/-- Model of JavaScript `String.prototype.toLowerCase`: lower each
character (agrees with `toLowerCase` on the ASCII city tokens involved). -/
def lowerString (s : String) : String := ⟨s.data.map Char.toLower⟩

/-- The city-resolution relation used by the theorems below: `cityToken`
resolves to the canonical name `v` exactly when the access
`cityMap[cityParam]` (with `cityParam = req.params.city.toLowerCase()`,
lines 180–181) lands on an own key of the table.  The complete JavaScript
property access, prototype chain included, is `cityMapAccess`. -/
def resolveCity (cityToken : String) : Option String :=
  cityMap.lookup (lowerString cityToken)

/-- The property names every plain object literal inherits from
`Object.prototype`.  `cityMap[cityParam]` finds these on the prototype
chain when no own key matches, and each of their values (a built-in
function, or `Object.prototype` itself for `__proto__`) is truthy. -/
def objectPrototypeProps : List String :=
  ["constructor", "hasOwnProperty", "isPrototypeOf", "propertyIsEnumerable",
   "toLocaleString", "toString", "valueOf", "__defineGetter__",
   "__defineSetter__", "__lookupGetter__", "__lookupSetter__", "__proto__"]

/-- Result of the JavaScript property access `cityMap[cityParam]`: an own
key of the object literal, a property inherited from `Object.prototype`
(truthy, but not a location name), or `undefined`. -/
inductive CityLookup where
  | city (v : String)
  | protoProp (name : String)
  | undefined
deriving Repr, DecidableEq

/-- The complete property access `cityMap[cityParam]` of line 181: own
keys first, then the prototype chain, else `undefined`. -/
def cityMapAccess (k : String) : CityLookup :=
  match cityMap.lookup k with
  | some v => .city v
  | none => if k ∈ objectPrototypeProps then .protoProp k else .undefined

/-- String coercion of the inherited `Object.prototype` value found at
`name`, as a template literal or query serialization would render it
(`cityMap["constructor"]` is the `Object` constructor function,
`cityMap["__proto__"]` is `Object.prototype`).  No theorem depends on
this exact text — only on the fact that the handler proceeds to the
outbound call with it instead of answering 400. -/
def protoValueString : String → String
  | "__proto__" => "[object Object]"
  | "constructor" => "function Object() { [native code] }"
  | name => "function " ++ name ++ "() { [native code] }"

/-- The body of the `switch (element.elementName)` statement: each
recognized element name assigns one field of the forecast under
construction; unmatched names fall through and change nothing. -/
def applyNamed (name value : String) (f : Forecast) : Forecast :=
  if name = "Wx" then { f with weather := value }
  else if name = "PoP" then { f with rain := value ++ "%" }
  else if name = "MinT" then { f with minTemp := value ++ "°C" }
  else if name = "MaxT" then { f with maxTemp := value ++ "°C" }
  else if name = "CI" then { f with comfort := value }
  else if name = "WS" then { f with windSpeed := value }
  else f

/-- The `weatherElements.forEach` loop at a fixed index `i`:
`const value = element.time[i].parameter;` throws (exception path) when
`element.time[i]` is `undefined`, then the switch updates the forecast. -/
def applyElements (i : Nat) (es : List WeatherElement) (f : Forecast) :
    Except Unit Forecast :=
  match es with
  | [] => .ok f
  | e :: rest =>
    match e.time.get? i with
    | none => .error ()
    | some tw => applyElements i rest (applyNamed e.elementName tw.parameter.parameterName f)

/-- The forecast object literal at the top of iteration `i`:
start and end time from `weatherElements[0].time[i]`, all other fields
initialized to the empty string. -/
def initForecast (tw : TimeWindow) : Forecast :=
  { startTime := tw.startTime, endTime := tw.endTime,
    weather := "", rain := "", minTemp := "", maxTemp := "",
    comfort := "", windSpeed := "" }

/-- The `for (let i = 0; i < timeCount; i++)` loop: `tws` is the part of
`weatherElements[0].time` not yet consumed, `i` the current index. -/
def buildLoop (elements : List WeatherElement) :
    List TimeWindow → Nat → Except Unit (List Forecast)
  | [], _ => .ok []
  | tw :: rest, i =>
    match applyElements i elements (initForecast tw) with
    | .error e => .error e
    | .ok f =>
      match buildLoop elements rest (i + 1) with
      | .error e => .error e
      | .ok fs => .ok (f :: fs)

/-- Lines 209–246: `timeCount = weatherElements[0].time.length`, then the
index loop.  On an empty element list, `weatherElements[0].time` throws. -/
def buildForecasts (elements : List WeatherElement) :
    Except Unit (List Forecast) :=
  match elements with
  | [] => .error ()
  | e0 :: _ => buildLoop elements e0.time 0

/-- The generic fallback of `error.response.data.message || "無法取得天氣資料"`. -/
def fallbackMessage : String := "無法取得天氣資料"

/-- JavaScript `m || fallbackMessage`: the fallback is used when the
`message` field is absent or the empty string (both falsy). -/
def messageOrFallback : Option String → String
  | none => fallbackMessage
  | some m => if m = "" then fallbackMessage else m

/-- The `if (error.response)` branch of the catch block (lines 250–256). -/
def upstreamErrorResponse (s : Nat) (b : UpstreamErrorBody) : HttpResponse :=
  { status := s,
    body := .failure "CWA API 錯誤" (some (messageOrFallback b.message)) (some b) }

/-- The final catch branch (lines 257–260): an error with no `response`
field — a network fault or a `TypeError` thrown while reading the body. -/
def genericErrorResponse : HttpResponse :=
  { status := 500,
    body := .failure "伺服器錯誤" (some "無法取得天氣資料，請稍後再試") none }

/-- Lines 196–247 of `getWeatherByCity`: processing of a 2xx upstream
body.  An absent `location` field makes `location[0]` throw, landing in
the generic catch branch; an empty array gives `undefined`, hence 404. -/
def processBody (cwaCity : String) (records : Records) : HttpResponse :=
  match records.location with
  | none => genericErrorResponse
  | some locs =>
    match locs.head? with
    | none =>
      { status := 404,
        body := .failure "查無資料" (some ("無法取得" ++ cwaCity ++ "天氣資料")) none }
    | some locationData =>
      match buildForecasts locationData.weatherElement with
      | .error _ => genericErrorResponse
      | .ok fs =>
        { status := 200,
          body := .success
            { city := locationData.locationName,
              updateTime := records.datasetDescription,
              forecasts := fs } }

/-- Lines 186–247 plus the catch block: the single outbound call with
`locationName = cwaCity` and everything after it, shared by the own-key
path and the prototype-inherited path (where `cwaCity` is the coerced
inherited value). -/
def runForecastRequest (cwaCity : String)
    (upstream : String → UpstreamOutcome) : HandlerResult :=
  { requested := some cwaCity, calls := 1,
    response :=
      match upstream cwaCity with
      | .ok records => processBody cwaCity records
      | .httpError s b => upstreamErrorResponse s b
      | .networkError => genericErrorResponse }

/-- `getWeatherByCity` (lines 171–262): credential check, the property
access `cityMap[cityParam]`, one outbound call, body processing,
catch-block error mapping.  The `if (!cwaCity)` guard at line 182 fires
only when the access yields `undefined`; an `Object.prototype`-inherited
value is truthy, so the handler proceeds to the outbound call with it. -/
def getWeatherByCity (apiKey : Option String) (cityToken : String)
    (upstream : String → UpstreamOutcome) : HandlerResult :=
  if isFalsyEnv apiKey then
    { requested := none, calls := 0,
      response :=
        { status := 500,
          body := .failure "伺服器設定錯誤"
            (some "請在 .env 檔案中設定 CWA_API_KEY") none } }
  else
    match cityMapAccess (lowerString cityToken) with
    | .undefined =>
      { requested := none, calls := 0,
        response := { status := 400, body := .failure "不支援的城市" none none } }
    | .city cwaCity => runForecastRequest cwaCity upstream
    | .protoProp name => runForecastRequest (protoValueString name) upstream

/-- `getKaohsiungWeather` (lines 13–117): identical pipeline but with the
hard-coded request `locationName: "桃園市"` and its own literal 404
message `"無法取得桃園市天氣資料"`; no city parameter is consulted. -/
def getKaohsiungWeather (apiKey : Option String)
    (upstream : String → UpstreamOutcome) : HandlerResult :=
  if isFalsyEnv apiKey then
    { requested := none, calls := 0,
      response :=
        { status := 500,
          body := .failure "伺服器設定錯誤"
            (some "請在 .env 檔案中設定 CWA_API_KEY") none } }
  else
    { requested := some "桃園市", calls := 1,
      response :=
        match upstream "桃園市" with
        | .ok records =>
          (match records.location with
           | none => genericErrorResponse
           | some locs =>
             match locs.head? with
             | none =>
               { status := 404,
                 body := .failure "查無資料" (some "無法取得桃園市天氣資料") none }
             | some locationData =>
               match buildForecasts locationData.weatherElement with
               | .error _ => genericErrorResponse
               | .ok fs =>
                 { status := 200,
                   body := .success
                     { city := locationData.locationName,
                       updateTime := records.datasetDescription,
                       forecasts := fs } })
        | .httpError s b => upstreamErrorResponse s b
        | .networkError => genericErrorResponse }

/-- The fixed enumeration of recognized element names. -/
def elementNames : List String := ["Wx", "PoP", "MinT", "MaxT", "CI", "WS"]

/-- The forecast field populated by each recognized element name. -/
def fieldOf : String → Forecast → String
  | "Wx" => Forecast.weather
  | "PoP" => Forecast.rain
  | "MinT" => Forecast.minTemp
  | "MaxT" => Forecast.maxTemp
  | "CI" => Forecast.comfort
  | "WS" => Forecast.windSpeed
  | _ => fun _ => ""

/-!
Properties of the normalization transform (`buildForecasts` and its
inner loops), used by the claim theorems below.
-/

theorem applyNamed_startTime (name v : String) (f : Forecast) :
    (applyNamed name v f).startTime = f.startTime := by
  unfold applyNamed; split_ifs <;> rfl

theorem applyNamed_endTime (name v : String) (f : Forecast) :
    (applyNamed name v f).endTime = f.endTime := by
  unfold applyNamed; split_ifs <;> rfl

theorem applyNamed_fieldOf_ne (name v : String) (f : Forecast) (fld : String)
    (hfld : fld ∈ elementNames) (hne : name ≠ fld) :
    fieldOf fld (applyNamed name v f) = fieldOf fld f := by
  simp only [elementNames, List.mem_cons, List.not_mem_nil, or_false] at hfld
  unfold applyNamed
  rcases hfld with rfl | rfl | rfl | rfl | rfl | rfl <;>
    split_ifs <;> first | rfl | simp_all

theorem initForecast_fieldOf (tw : TimeWindow) (fld : String)
    (hfld : fld ∈ elementNames) : fieldOf fld (initForecast tw) = "" := by
  simp only [elementNames, List.mem_cons, List.not_mem_nil, or_false] at hfld
  rcases hfld with rfl | rfl | rfl | rfl | rfl | rfl <;> rfl

theorem applyElements_spec (i : Nat) :
    ∀ (es : List WeatherElement) (f : Forecast),
      (∀ e ∈ es, i < e.time.length) →
      ∃ g, applyElements i es f = .ok g ∧
        g.startTime = f.startTime ∧ g.endTime = f.endTime ∧
        ∀ fld ∈ elementNames, (∀ e ∈ es, e.elementName ≠ fld) →
          fieldOf fld g = fieldOf fld f := by
  intro es
  induction es with
  | nil => intro f _; exact ⟨f, rfl, rfl, rfl, fun _ _ _ => rfl⟩
  | cons e rest ih =>
    intro f h
    have he : i < e.time.length := h e (List.mem_cons_self _ _)
    obtain ⟨tw, htw⟩ : ∃ tw, e.time.get? i = some tw :=
      ⟨e.time.get ⟨i, he⟩, List.get?_eq_get he⟩
    obtain ⟨g, hg, hs, hEnd, hf⟩ :=
      ih (applyNamed e.elementName tw.parameter.parameterName f)
        (fun e' he' => h e' (List.mem_cons_of_mem _ he'))
    refine ⟨g, ?_, ?_, ?_, ?_⟩
    · simp only [applyElements]
      rw [htw]
      exact hg
    · exact hs.trans (applyNamed_startTime ..)
    · exact hEnd.trans (applyNamed_endTime ..)
    · intro fld hfld habs
      exact (hf fld hfld (fun e' he' => habs e' (List.mem_cons_of_mem _ he'))).trans
        (applyNamed_fieldOf_ne e.elementName tw.parameter.parameterName f fld hfld
          (habs e (List.mem_cons_self _ _)))

theorem buildLoop_spec (elements : List WeatherElement) :
    ∀ (tws : List TimeWindow) (i : Nat),
      (∀ e ∈ elements, i + tws.length ≤ e.time.length) →
      ∃ fs, buildLoop elements tws i = .ok fs ∧
        fs.length = tws.length ∧
        (∀ j (hj : j < tws.length) (hj' : j < fs.length),
          (fs.get ⟨j, hj'⟩).startTime = (tws.get ⟨j, hj⟩).startTime ∧
          (fs.get ⟨j, hj'⟩).endTime = (tws.get ⟨j, hj⟩).endTime) ∧
        (∀ fld ∈ elementNames, (∀ e ∈ elements, e.elementName ≠ fld) →
          ∀ f ∈ fs, fieldOf fld f = "") := by
  intro tws
  induction tws with
  | nil =>
    intro i _
    exact ⟨[], rfl, rfl, fun j hj _ => absurd hj (by simp), fun _ _ _ _ hf => absurd hf (by simp)⟩
  | cons tw rest ih =>
    intro i h
    have hstep : ∀ e ∈ elements, i < e.time.length := by
      intro e he; have := h e he; simp only [List.length_cons] at this; omega
    obtain ⟨g, hg, hs, hEnd, hfld⟩ := applyElements_spec i elements (initForecast tw) hstep
    obtain ⟨fs, hfs, hlen, hidx, habs⟩ := ih (i + 1)
      (by intro e he; have := h e he; simp only [List.length_cons] at this; omega)
    refine ⟨g :: fs, ?_, by simp [hlen], ?_, ?_⟩
    · simp [buildLoop, hg, hfs]
    · intro j hj hj'
      cases j with
      | zero => exact ⟨by simpa using hs, by simpa using hEnd⟩
      | succ j =>
        exact hidx j (by simpa using hj) (by simpa using hj')
    · intro fld hfm habsent f hf
      rcases List.mem_cons.mp hf with rfl | hf'
      · exact (hfld fld hfm habsent).trans (initForecast_fieldOf tw fld hfm)
      · exact habs fld hfm habsent f hf'

theorem buildForecasts_spec (e0 : WeatherElement) (rest : List WeatherElement)
    (hAlign : ∀ e ∈ e0 :: rest, e.time.length = e0.time.length) :
    ∃ fs, buildForecasts (e0 :: rest) = .ok fs ∧
      fs.length = e0.time.length ∧
      (∀ j (hj : j < e0.time.length) (hj' : j < fs.length),
        (fs.get ⟨j, hj'⟩).startTime = (e0.time.get ⟨j, hj⟩).startTime ∧
        (fs.get ⟨j, hj'⟩).endTime = (e0.time.get ⟨j, hj⟩).endTime) ∧
      (∀ fld ∈ elementNames, (∀ e ∈ e0 :: rest, e.elementName ≠ fld) →
        ∀ f ∈ fs, fieldOf fld f = "") := by
  have h := buildLoop_spec (e0 :: rest) e0.time 0
    (by intro e he; rw [hAlign e he]; omega)
  simpa [buildForecasts] using h

/-- When a token resolves to a canonical name, the complete property
access lands on that own key of the table. -/
theorem cityMapAccess_eq_city (cityToken c : String)
    (h : resolveCity cityToken = some c) :
    cityMapAccess (lowerString cityToken) = .city c := by
  unfold resolveCity at h
  unfold cityMapAccess
  rw [h]

/-- Once the outbound call is made, no continuation ever produces the
unsupported-city error label. -/
theorem runForecastRequest_not_unsupported (loc : String)
    (upstream : String → UpstreamOutcome) :
    (runForecastRequest loc upstream).response.body.errField ≠ "不支援的城市" := by
  cases hup : upstream loc with
  | ok records =>
    cases hloc : records.location with
    | none =>
      simp only [runForecastRequest, hup, processBody, hloc,
        genericErrorResponse]
      decide
    | some locs =>
      cases locs with
      | nil =>
        simp only [runForecastRequest, hup, processBody, hloc, List.head?,
          ResponseBody.errField]
        decide
      | cons loc0 rest =>
        cases hb : buildForecasts loc0.weatherElement with
        | error e =>
          simp only [runForecastRequest, hup, processBody, hloc, List.head?,
            hb, genericErrorResponse]
          decide
        | ok fs =>
          simp only [runForecastRequest, hup, processBody, hloc, List.head?,
            hb, ResponseBody.errField]
          decide
  | httpError s b =>
    simp only [runForecastRequest, hup, upstreamErrorResponse,
      ResponseBody.errField]
    decide
  | networkError =>
    simp only [runForecastRequest, hup, genericErrorResponse]
    decide

/-- C7: on every invocation with no upstream credential configured,
`getWeatherByCity` fails immediately with the configuration error
(HTTP 500), makes no outbound call, regardless of the city token. -/
theorem getWeatherByCity_missing_key_config_error_c7 (apiKey : Option String)
    (cityToken : String) (upstream : String → UpstreamOutcome)
    (hkey : isFalsyEnv apiKey = true) :
    getWeatherByCity apiKey cityToken upstream =
      { requested := none, calls := 0,
        response :=
          { status := 500,
            body := (.failure "伺服器設定錯誤"
              (some "請在 .env 檔案中設定 CWA_API_KEY") none) } } := by
  simp [getWeatherByCity, hkey]

/-- Witness for C7 at a concrete input. -/
theorem getWeatherByCity_missing_key_config_error_c7_witness :
    isFalsyEnv none = true ∧
    getWeatherByCity none "taipei" (fun _ => .networkError) =
      { requested := none, calls := 0,
        response :=
          { status := 500,
            body := (.failure "伺服器設定錯誤"
              (some "請在 .env 檔案中設定 CWA_API_KEY") none) } } :=
  ⟨rfl, getWeatherByCity_missing_key_config_error_c7 none "taipei"
    (fun _ => .networkError) rfl⟩

/-- C6 (amended): a token absent from the alias table after lower-casing
yields the 400 unsupported-city response with no outbound call, provided
its lower-cased form is not one of the `Object.prototype` property names;
for those names the inherited value is truthy, the line-182 guard does
not fire, and the handler instead makes an outbound call (with the
coerced inherited value as location name) and never answers with the
unsupported-city error. -/
theorem getWeatherByCity_unsupported_city_c6 :
    (∀ (apiKey : Option String) (cityToken : String)
      (upstream : String → UpstreamOutcome),
      isFalsyEnv apiKey = false →
      resolveCity cityToken = none →
      lowerString cityToken ∉ objectPrototypeProps →
      getWeatherByCity apiKey cityToken upstream =
        { requested := none, calls := 0,
          response := { status := 400, body := .failure "不支援的城市" none none } }) ∧
    (∀ (apiKey : Option String) (cityToken : String)
      (upstream : String → UpstreamOutcome),
      isFalsyEnv apiKey = false →
      resolveCity cityToken = none →
      lowerString cityToken ∈ objectPrototypeProps →
      (getWeatherByCity apiKey cityToken upstream).calls = 1 ∧
      (getWeatherByCity apiKey cityToken upstream).requested =
        some (protoValueString (lowerString cityToken)) ∧
      (getWeatherByCity apiKey cityToken upstream).response.body.errField ≠
        "不支援的城市") := by
  constructor
  · intro apiKey cityToken upstream hkey hnone hnotmem
    have hacc : cityMapAccess (lowerString cityToken) = .undefined := by
      unfold resolveCity at hnone
      unfold cityMapAccess
      rw [hnone]
      simp [hnotmem]
    simp [getWeatherByCity, hkey, hacc]
  · intro apiKey cityToken upstream hkey hnone hmem
    have hacc : cityMapAccess (lowerString cityToken) =
        .protoProp (lowerString cityToken) := by
      unfold resolveCity at hnone
      unfold cityMapAccess
      rw [hnone]
      simp [hmem]
    refine ⟨?_, ?_, ?_⟩
    · simp [getWeatherByCity, hkey, hacc, runForecastRequest]
    · simp [getWeatherByCity, hkey, hacc, runForecastRequest]
    · simp only [getWeatherByCity, hkey, Bool.false_eq_true, if_false, hacc]
      exact runForecastRequest_not_unsupported
        (protoValueString (lowerString cityToken)) upstream

/-- Counterexample for C6 as frozen: the token "constructor" lower-cases
to itself and is absent from the alias table, yet `cityMap["constructor"]`
finds the inherited (truthy) `Object` constructor, so the handler makes
an outbound call and does not answer 400 unsupported-city. -/
theorem getWeatherByCity_prototype_token_cex_c6 :
    resolveCity "constructor" = none ∧
    (getWeatherByCity (some "k") "constructor"
        (fun _ => .networkError)).calls = 1 ∧
    (getWeatherByCity (some "k") "constructor"
        (fun _ => .networkError)).response.status = 500 ∧
    (getWeatherByCity (some "k") "constructor"
        (fun _ => .networkError)).response.status ≠ 400 ∧
    (getWeatherByCity (some "k") "constructor"
        (fun _ => .networkError)).response.body.errField ≠ "不支援的城市" := by
  decide

/-- Witness for C6: the 400 part at "osaka", the bypass part at
"constructor". -/
theorem getWeatherByCity_unsupported_city_c6_witness :
    (getWeatherByCity (some "k") "osaka" (fun _ => .networkError) =
      { requested := none, calls := 0,
        response := { status := 400, body := .failure "不支援的城市" none none } }) ∧
    ((getWeatherByCity (some "k") "constructor"
        (fun _ => .networkError)).calls = 1 ∧
     (getWeatherByCity (some "k") "constructor"
        (fun _ => .networkError)).requested =
       some (protoValueString (lowerString "constructor")) ∧
     (getWeatherByCity (some "k") "constructor"
        (fun _ => .networkError)).response.body.errField ≠ "不支援的城市") :=
  ⟨getWeatherByCity_unsupported_city_c6.1 (some "k") "osaka"
     (fun _ => .networkError) (by decide) (by decide) (by decide),
   getWeatherByCity_unsupported_city_c6.2 (some "k") "constructor"
     (fun _ => .networkError) (by decide) (by decide) (by decide)⟩

/-- C9: an outbound failure with no response object yields the fixed 500
with the generic retry-later message, after exactly one outbound call. -/
theorem getWeatherByCity_network_fault_c9 (apiKey : Option String)
    (cityToken c : String) (upstream : String → UpstreamOutcome)
    (hkey : isFalsyEnv apiKey = false)
    (hcity : resolveCity cityToken = some c)
    (hup : upstream c = .networkError) :
    getWeatherByCity apiKey cityToken upstream =
      { requested := some c, calls := 1,
        response :=
          { status := 500,
            body := .failure "伺服器錯誤" (some "無法取得天氣資料，請稍後再試") none } } := by
  have hacc := cityMapAccess_eq_city cityToken c hcity
  simp [getWeatherByCity, hkey, hacc, runForecastRequest, hup,
    genericErrorResponse]

/-- Witness for C9 at a concrete connection-refused simulation. -/
theorem getWeatherByCity_network_fault_c9_witness :
    getWeatherByCity (some "k") "taipei" (fun _ => .networkError) =
      { requested := some "臺北市", calls := 1,
        response :=
          { status := 500,
            body := .failure "伺服器錯誤" (some "無法取得天氣資料，請稍後再試") none } } :=
  getWeatherByCity_network_fault_c9 (some "k") "taipei" "臺北市"
    (fun _ => .networkError) (by decide) (by decide) rfl

/-- C3 (amended): an outbound failure carrying a response with status `s`
and body `b` is forwarded with status exactly `s`, error label
"CWA API 錯誤", the raw body `b` as details, and message equal to `b`'s
message field when that field is present and non-empty, otherwise the
generic fallback (JavaScript `||` also falls back on the empty string). -/
theorem getWeatherByCity_upstream_status_forwarding_c3 (apiKey : Option String)
    (cityToken c : String) (upstream : String → UpstreamOutcome)
    (s : Nat) (b : UpstreamErrorBody)
    (hkey : isFalsyEnv apiKey = false)
    (hcity : resolveCity cityToken = some c)
    (hup : upstream c = .httpError s b) :
    getWeatherByCity apiKey cityToken upstream =
      { requested := some c, calls := 1,
        response :=
          { status := s,
            body := (.failure "CWA API 錯誤"
              (some (messageOrFallback b.message)) (some b)) } } ∧
    (∀ m, b.message = some m → m ≠ "" → messageOrFallback b.message = m) ∧
    ((b.message = none ∨ b.message = some "") →
      messageOrFallback b.message = fallbackMessage) := by
  have hacc := cityMapAccess_eq_city cityToken c hcity
  refine ⟨by simp [getWeatherByCity, hkey, hacc, runForecastRequest, hup,
    upstreamErrorResponse], ?_, ?_⟩
  · intro m hm hne; simp [messageOrFallback, hm, hne]
  · rintro (hm | hm) <;> simp [messageOrFallback, hm]

/-- Counterexample for C3 as frozen: for the body `{message: ""}` the
message field is present, yet the handler responds with the generic
fallback rather than the upstream-provided (empty) message. -/
theorem getWeatherByCity_empty_message_cex_c3 :
    (getWeatherByCity (some "k") "taipei"
        (fun _ => .httpError 503 ⟨some "", "raw"⟩)).response.body.msgField ≠ some "" ∧
    (getWeatherByCity (some "k") "taipei"
        (fun _ => .httpError 503 ⟨some "", "raw"⟩)).response.body.msgField =
      some "無法取得天氣資料" := by
  exact ⟨by decide, by decide⟩

/-- Witness for C3 at the simulated 503 with body `{message: "maintenance"}`. -/
theorem getWeatherByCity_upstream_status_forwarding_c3_witness :
    getWeatherByCity (some "k") "taipei"
        (fun _ => .httpError 503 ⟨some "maintenance", "raw"⟩) =
      { requested := some "臺北市", calls := 1,
        response :=
          { status := 503,
            body := (.failure "CWA API 錯誤" (some "maintenance")
              (some ⟨some "maintenance", "raw"⟩)) } } :=
  (getWeatherByCity_upstream_status_forwarding_c3 (some "k") "taipei" "臺北市"
    (fun _ => .httpError 503 ⟨some "maintenance", "raw"⟩) 503
    ⟨some "maintenance", "raw"⟩ (by decide) (by decide) rfl).1

/-- C8 (amended): an upstream document whose location list is present but
empty yields the 404 no-data response, whose message contains the resolved
canonical location name.  (An absent location list instead throws and is
mapped to the generic 500 — see the counterexample.) -/
theorem getWeatherByCity_empty_location_404_c8 (apiKey : Option String)
    (cityToken c : String) (upstream : String → UpstreamOutcome)
    (records : Records)
    (hkey : isFalsyEnv apiKey = false)
    (hcity : resolveCity cityToken = some c)
    (hup : upstream c = .ok records)
    (hloc : records.location = some []) :
    (getWeatherByCity apiKey cityToken upstream).response =
      { status := 404,
        body := .failure "查無資料" (some ("無法取得" ++ c ++ "天氣資料")) none } ∧
    ∃ p q, "無法取得" ++ c ++ "天氣資料" = p ++ c ++ q := by
  constructor
  · have hacc := cityMapAccess_eq_city cityToken c hcity
    simp [getWeatherByCity, hkey, hacc, runForecastRequest, hup,
      processBody, hloc]
  · exact ⟨"無法取得", "天氣資料", rfl⟩

/-- Counterexample for C8 as frozen: when the location list is absent
altogether, reading `location[0]` throws, and the handler answers with the
generic 500, not with the 404 no-data response. -/
theorem getWeatherByCity_absent_location_cex_c8 :
    (getWeatherByCity (some "k") "taipei"
        (fun _ => .ok ⟨"d", none⟩)).response.status = 500 ∧
    (getWeatherByCity (some "k") "taipei"
        (fun _ => .ok ⟨"d", none⟩)).response.status ≠ 404 ∧
    (getWeatherByCity (some "k") "taipei"
        (fun _ => .ok ⟨"d", none⟩)).response.body.errField ≠ "查無資料" := by
  decide

/-- Witness for C8 at a concrete empty-location document. -/
theorem getWeatherByCity_empty_location_404_c8_witness :
    (getWeatherByCity (some "k") "taipei" (fun _ => .ok ⟨"d", some []⟩)).response =
      { status := 404,
        body := (.failure "查無資料"
            (some ("無法取得" ++ "臺北市" ++ "天氣資料")) none) } ∧
    ∃ p q, "無法取得" ++ "臺北市" ++ "天氣資料" = p ++ "臺北市" ++ q :=
  getWeatherByCity_empty_location_404_c8 (some "k") "taipei" "臺北市"
    (fun _ => .ok ⟨"d", some []⟩) ⟨"d", some []⟩ (by decide) (by decide) rfl rfl

/-- C5: city resolution lower-cases the token before the table lookup, so
it is invariant under letter case; every alias-table entry resolves to its
own canonical name; and case-normalized keys never map to conflicting
canonical names. -/
theorem resolveCity_case_insensitive_c5 :
    (∀ s t : String, lowerString s = lowerString t →
      resolveCity s = resolveCity t) ∧
    (∀ p ∈ cityMap, resolveCity p.1 = some p.2) ∧
    (∀ p ∈ cityMap, ∀ q ∈ cityMap, lowerString p.1 = lowerString q.1 →
      p.2 = q.2) := by
  refine ⟨?_, by decide, by decide⟩
  intro s t h
  unfold resolveCity
  rw [h]

/-- Witness for C5 at the pair "Taipei" / "taipei". -/
theorem resolveCity_case_insensitive_c5_witness :
    resolveCity "Taipei" = resolveCity "taipei" ∧
    resolveCity "taipei" = some "臺北市" :=
  ⟨resolveCity_case_insensitive_c5.1 "Taipei" "taipei" (by decide),
   resolveCity_case_insensitive_c5.2.1 ("taipei", "臺北市") (by decide)⟩



/-- Fixture for C1: the `Wx` element of a synthetic two-window document. -/
def fixtureWx : WeatherElement :=
  { elementName := "Wx",
    time := [⟨"2024-01-01 00:00", "2024-01-01 12:00", ⟨"晴時多雲"⟩⟩,
             ⟨"2024-01-01 12:00", "2024-01-02 00:00", ⟨"多雲"⟩⟩] }

/-- Fixture for C1: the five remaining elements, two windows each. -/
def fixtureRest : List WeatherElement :=
  [{ elementName := "PoP",
     time := [⟨"2024-01-01 00:00", "2024-01-01 12:00", ⟨"10"⟩⟩,
              ⟨"2024-01-01 12:00", "2024-01-02 00:00", ⟨"30"⟩⟩] },
   { elementName := "MinT",
     time := [⟨"2024-01-01 00:00", "2024-01-01 12:00", ⟨"22"⟩⟩,
              ⟨"2024-01-01 12:00", "2024-01-02 00:00", ⟨"20"⟩⟩] },
   { elementName := "MaxT",
     time := [⟨"2024-01-01 00:00", "2024-01-01 12:00", ⟨"28"⟩⟩,
              ⟨"2024-01-01 12:00", "2024-01-02 00:00", ⟨"25"⟩⟩] },
   { elementName := "CI",
     time := [⟨"2024-01-01 00:00", "2024-01-01 12:00", ⟨"舒適"⟩⟩,
              ⟨"2024-01-01 12:00", "2024-01-02 00:00", ⟨"稍有寒意"⟩⟩] },
   { elementName := "WS",
     time := [⟨"2024-01-01 00:00", "2024-01-01 12:00", ⟨"微風"⟩⟩,
              ⟨"2024-01-01 12:00", "2024-01-02 00:00", ⟨"和風"⟩⟩] }]

/-- Fixture for C1: the first (and only) location entry. -/
def fixtureLocation : LocationData :=
  { locationName := "臺北市", weatherElement := fixtureWx :: fixtureRest }

/-- Fixture for C1: the upstream records with `timeCount = 2` and all six
element types present at both indices. -/
def fixtureRecords : Records :=
  { datasetDescription := "三十六小時天氣預報", location := some [fixtureLocation] }

/-- Fixture for C1: an upstream that answers every request with the
two-window document. -/
def fixtureUpstream : String → UpstreamOutcome := fun _ => .ok fixtureRecords

/-- The normalized forecasts the fixture must produce. -/
def fixtureForecasts : List Forecast :=
  [{ startTime := "2024-01-01 00:00", endTime := "2024-01-01 12:00",
     weather := "晴時多雲", rain := "10%", minTemp := "22°C", maxTemp := "28°C",
     comfort := "舒適", windSpeed := "微風" },
   { startTime := "2024-01-01 12:00", endTime := "2024-01-02 00:00",
     weather := "多雲", rain := "30%", minTemp := "20°C", maxTemp := "25°C",
     comfort := "稍有寒意", windSpeed := "和風" }]

/-- C1: (general part) for every upstream response whose first location
entry has weather elements — with the data-model invariant that all
elements report as many time windows as the first — the handler answers
200 with exactly one forecast per window of the first element, in upstream
order, with start and end times taken from the first element's windows;
(specific part) the fixed two-window fixture with all six element types
normalizes to exactly two fully populated entries, `rain` ending in "%"
and `minTemp`/`maxTemp` ending in "°C". -/
theorem getWeatherByCity_normalization_c1 :
    (∀ (apiKey : Option String) (cityToken c : String)
      (upstream : String → UpstreamOutcome) (records : Records)
      (loc0 : LocationData) (locs : List LocationData)
      (e0 : WeatherElement) (rest : List WeatherElement),
      isFalsyEnv apiKey = false →
      resolveCity cityToken = some c →
      upstream c = .ok records →
      records.location = some (loc0 :: locs) →
      loc0.weatherElement = e0 :: rest →
      (∀ e ∈ loc0.weatherElement, e.time.length = e0.time.length) →
      ∃ d, (getWeatherByCity apiKey cityToken upstream).response =
          { status := 200, body := .success d } ∧
        d.forecasts.length = e0.time.length ∧
        ∀ j (hj : j < e0.time.length) (hj' : j < d.forecasts.length),
          (d.forecasts.get ⟨j, hj'⟩).startTime = (e0.time.get ⟨j, hj⟩).startTime ∧
          (d.forecasts.get ⟨j, hj'⟩).endTime = (e0.time.get ⟨j, hj⟩).endTime) ∧
    (getWeatherByCity (some "test-key") "taipei" fixtureUpstream =
      { requested := some "臺北市", calls := 1,
        response :=
          { status := 200,
            body := .success { city := "臺北市", updateTime := "三十六小時天氣預報", forecasts := fixtureForecasts } } } ∧
     fixtureForecasts.length = 2 ∧
     ∀ f ∈ fixtureForecasts,
       (∃ p, f.rain = p ++ "%") ∧ (∃ p, f.minTemp = p ++ "°C") ∧
       (∃ p, f.maxTemp = p ++ "°C") ∧ f.weather ≠ "" ∧ f.comfort ≠ "" ∧
       f.windSpeed ≠ "" ∧ f.startTime ≠ "" ∧ f.endTime ≠ "") := by
  constructor
  · intro apiKey cityToken c upstream records loc0 locs e0 rest
      hkey hcity hup hloc helts hAlign
    rw [helts] at hAlign
    obtain ⟨fs, hfs, hlen, hidx, _⟩ := buildForecasts_spec e0 rest hAlign
    refine ⟨{ city := loc0.locationName,
              updateTime := records.datasetDescription, forecasts := fs }, ?_, hlen, hidx⟩
    have hacc := cityMapAccess_eq_city cityToken c hcity
    simp [getWeatherByCity, hkey, hacc, runForecastRequest, hup,
      processBody, hloc, helts, hfs]
  · refine ⟨by decide, by decide, ?_⟩
    intro f hf
    simp only [fixtureForecasts, List.mem_cons, List.not_mem_nil, or_false] at hf
    rcases hf with rfl | rfl
    · exact ⟨⟨"10", rfl⟩, ⟨"22", rfl⟩, ⟨"28", rfl⟩,
        by decide, by decide, by decide, by decide, by decide⟩
    · exact ⟨⟨"30", rfl⟩, ⟨"20", rfl⟩, ⟨"25", rfl⟩,
        by decide, by decide, by decide, by decide, by decide⟩

/-- Witness for C1: the general part instantiated at the fixture. -/
theorem getWeatherByCity_normalization_c1_witness :
    ∃ d, (getWeatherByCity (some "test-key") "taipei" fixtureUpstream).response =
        { status := 200, body := .success d } ∧
      d.forecasts.length = fixtureWx.time.length ∧
      ∀ j (hj : j < fixtureWx.time.length) (hj' : j < d.forecasts.length),
        (d.forecasts.get ⟨j, hj'⟩).startTime = (fixtureWx.time.get ⟨j, hj⟩).startTime ∧
        (d.forecasts.get ⟨j, hj'⟩).endTime = (fixtureWx.time.get ⟨j, hj⟩).endTime :=
  getWeatherByCity_normalization_c1.1 (some "test-key") "taipei" "臺北市"
    fixtureUpstream fixtureRecords fixtureLocation [] fixtureWx fixtureRest
    (by decide) (by decide) rfl rfl rfl (by decide)

/-- C2: when an element of the fixed enumeration is absent from the
upstream document, the handler still succeeds (no exception) and the
corresponding field of every forecast entry is the empty string. -/
theorem getWeatherByCity_absent_element_default_c2
    (apiKey : Option String) (cityToken c : String)
    (upstream : String → UpstreamOutcome) (records : Records)
    (loc0 : LocationData) (locs : List LocationData)
    (e0 : WeatherElement) (rest : List WeatherElement) (fld : String)
    (hkey : isFalsyEnv apiKey = false)
    (hcity : resolveCity cityToken = some c)
    (hup : upstream c = .ok records)
    (hloc : records.location = some (loc0 :: locs))
    (helts : loc0.weatherElement = e0 :: rest)
    (hAlign : ∀ e ∈ loc0.weatherElement, e.time.length = e0.time.length)
    (hfld : fld ∈ elementNames)
    (habs : ∀ e ∈ loc0.weatherElement, e.elementName ≠ fld) :
    ∃ d, (getWeatherByCity apiKey cityToken upstream).response =
        { status := 200, body := .success d } ∧
      ∀ f ∈ d.forecasts, fieldOf fld f = "" := by
  rw [helts] at hAlign habs
  obtain ⟨fs, hfs, _, _, hdef⟩ := buildForecasts_spec e0 rest hAlign
  refine ⟨{ city := loc0.locationName,
            updateTime := records.datasetDescription, forecasts := fs }, ?_, ?_⟩
  · have hacc := cityMapAccess_eq_city cityToken c hcity
    simp [getWeatherByCity, hkey, hacc, runForecastRequest, hup,
      processBody, hloc, helts, hfs]
  · intro f hf
    exact hdef fld hfld habs f hf

/-- Fixture for C2: the fixture elements with the `CI` element removed. -/
def fixtureNoCIRest : List WeatherElement :=
  fixtureRest.filter (fun e => e.elementName ≠ "CI")

/-- Fixture for C2: the location entry missing the `CI` element. -/
def fixtureNoCILocation : LocationData :=
  { locationName := "臺北市", weatherElement := fixtureWx :: fixtureNoCIRest }

/-- Fixture for C2: the synthetic document with the `CI` element removed. -/
def fixtureNoCIRecords : Records :=
  { datasetDescription := "三十六小時天氣預報",
    location := some [fixtureNoCILocation] }

/-- Witness for C2: the document missing `CI` entirely yields a success
whose `comfort` field is empty at every index. -/
theorem getWeatherByCity_absent_element_default_c2_witness :
    ∃ d, (getWeatherByCity (some "test-key") "taipei"
        (fun _ => .ok fixtureNoCIRecords)).response =
        { status := 200, body := .success d } ∧
      ∀ f ∈ d.forecasts, fieldOf "CI" f = "" :=
  getWeatherByCity_absent_element_default_c2 (some "test-key") "taipei" "臺北市"
    (fun _ => .ok fixtureNoCIRecords) fixtureNoCIRecords
    fixtureNoCILocation [] fixtureWx fixtureNoCIRest "CI"
    (by decide) (by decide) rfl rfl rfl (by decide) (by decide) (by decide)



/-- `m || fallback` never produces the empty string. -/
theorem messageOrFallback_ne_empty (m : Option String) :
    messageOrFallback m ≠ "" := by
  cases m with
  | none => decide
  | some s =>
    show (if s = "" then fallbackMessage else s) ≠ ""
    split_ifs with hs
    · decide
    · exact hs

/-- Once the outbound call is made, every error continuation carries a
non-empty error label and a non-empty message. -/
theorem runForecastRequest_error_envelope (loc : String)
    (upstream : String → UpstreamOutcome) (err : String) (m : Option String)
    (det : Option UpstreamErrorBody)
    (h : (runForecastRequest loc upstream).response.body = .failure err m det) :
    err ≠ "" ∧ ∃ s, m = some s ∧ s ≠ "" := by
  cases hup : upstream loc with
  | ok records =>
    cases hloc : records.location with
    | none =>
      simp [runForecastRequest, hup, processBody, hloc,
        genericErrorResponse] at h
      obtain ⟨h1, h2, h3⟩ := h
      subst h1
      subst h2
      exact ⟨by decide, _, rfl, by decide⟩
    | some locs =>
      cases locs with
      | nil =>
        simp [runForecastRequest, hup, processBody, hloc] at h
        obtain ⟨h1, h2, h3⟩ := h
        subst h1
        subst h2
        refine ⟨by decide, _, rfl, ?_⟩
        intro hEq
        have hlen := congrArg String.length hEq
        rw [String.length_append, String.length_append] at hlen
        have ha : ("無法取得" : String).length = 4 := rfl
        have hb : ("天氣資料" : String).length = 4 := rfl
        have hz : ("" : String).length = 0 := rfl
        omega
      | cons loc0 rest =>
        cases hb : buildForecasts loc0.weatherElement with
        | error e =>
          simp [runForecastRequest, hup, processBody, hloc, hb,
            genericErrorResponse] at h
          obtain ⟨h1, h2, h3⟩ := h
          subst h1
          subst h2
          exact ⟨by decide, _, rfl, by decide⟩
        | ok fs =>
          simp [runForecastRequest, hup, processBody, hloc, hb] at h
  | httpError s b =>
    simp [runForecastRequest, hup, upstreamErrorResponse] at h
    obtain ⟨h1, h2, h3⟩ := h
    subst h1
    subst h2
    exact ⟨by decide, _, rfl, messageOrFallback_ne_empty b.message⟩
  | networkError =>
    simp [runForecastRequest, hup, genericErrorResponse] at h
    obtain ⟨h1, h2, h3⟩ := h
    subst h1
    subst h2
    exact ⟨by decide, _, rfl, by decide⟩

/-- C4 (amended): every error response carries a non-empty error label,
and every error response other than the unsupported-city one also carries
a non-empty message; the unsupported-city branch (HTTP 400) is the one
branch that omits the message field. -/
theorem getWeatherByCity_error_envelope_c4 (apiKey : Option String)
    (cityToken : String) (upstream : String → UpstreamOutcome)
    (err : String) (m : Option String) (det : Option UpstreamErrorBody)
    (h : (getWeatherByCity apiKey cityToken upstream).response.body =
      .failure err m det) :
    err ≠ "" ∧
    (m = none → err = "不支援的城市" ∧
      (getWeatherByCity apiKey cityToken upstream).response.status = 400) ∧
    (∀ s, m = some s → s ≠ "") := by
  cases hkey : isFalsyEnv apiKey with
  | true =>
    simp [getWeatherByCity, hkey] at h
    obtain ⟨h1, h2, h3⟩ := h
    subst h1
    subst h2
    refine ⟨by decide, ?_, ?_⟩
    · intro hc
      cases hc
    · intro s hs
      cases hs
      decide
  | false =>
    cases hacc : cityMapAccess (lowerString cityToken) with
    | undefined =>
      simp [getWeatherByCity, hkey, hacc] at h
      obtain ⟨h1, h2, h3⟩ := h
      subst h1
      subst h2
      refine ⟨by decide, ?_, ?_⟩
      · intro _
        exact ⟨rfl, by simp [getWeatherByCity, hkey, hacc]⟩
      · intro s hs
        cases hs
    | city c =>
      have hrun : (runForecastRequest c upstream).response.body =
          .failure err m det := by
        simpa [getWeatherByCity, hkey, hacc] using h
      obtain ⟨herr, s', hm, hs'⟩ :=
        runForecastRequest_error_envelope c upstream err m det hrun
      refine ⟨herr, ?_, ?_⟩
      · intro hc
        rw [hm] at hc
        cases hc
      · intro t ht
        rw [hm] at ht
        cases ht
        exact hs'
    | protoProp name =>
      have hrun : (runForecastRequest (protoValueString name)
          upstream).response.body = .failure err m det := by
        simpa [getWeatherByCity, hkey, hacc] using h
      obtain ⟨herr, s', hm, hs'⟩ :=
        runForecastRequest_error_envelope (protoValueString name) upstream
          err m det hrun
      refine ⟨herr, ?_, ?_⟩
      · intro hc
        rw [hm] at hc
        cases hc
      · intro t ht
        rw [hm] at ht
        cases ht
        exact hs'



/-- Counterexample for C4 as frozen: the 400 unsupported-city branch sends
`{ error: "不支援的城市" }` with no message field at all. -/
theorem getWeatherByCity_no_message_cex_c4 :
    (getWeatherByCity (some "k") "osaka"
        (fun _ => .networkError)).response.status = 400 ∧
    (getWeatherByCity (some "k") "osaka"
        (fun _ => .networkError)).response.body.msgField = none ∧
    (getWeatherByCity (some "k") "osaka"
        (fun _ => .networkError)).response.body.errField = "不支援的城市" := by
  decide

/-- Witness for C4 at the configuration-error branch. -/
theorem getWeatherByCity_error_envelope_c4_witness :
    "伺服器設定錯誤" ≠ "" ∧
    ((some "請在 .env 檔案中設定 CWA_API_KEY" : Option String) = none →
      "伺服器設定錯誤" = "不支援的城市" ∧
      (getWeatherByCity none "taipei"
        (fun _ => .networkError)).response.status = 400) ∧
    (∀ s, (some "請在 .env 檔案中設定 CWA_API_KEY" : Option String) = some s →
      s ≠ "") :=
  getWeatherByCity_error_envelope_c4 none "taipei" (fun _ => .networkError)
    "伺服器設定錯誤" (some "請在 .env 檔案中設定 CWA_API_KEY") none rfl

/-- C10: `getKaohsiungWeather`, despite its name, always requests the
location 桃園市 (Taoyuan): the one outbound call it makes carries
`locationName = "桃園市"` (never "高雄市"), and its no-data 404 names
桃園市 in the message. -/
theorem getKaohsiungWeather_requests_taoyuan_c10 :
    (∀ (apiKey : Option String) (upstream : String → UpstreamOutcome),
      (getKaohsiungWeather apiKey upstream).requested = none ∨
      (getKaohsiungWeather apiKey upstream).requested = some "桃園市") ∧
    (∀ (apiKey : Option String) (upstream : String → UpstreamOutcome),
      isFalsyEnv apiKey = false →
      (getKaohsiungWeather apiKey upstream).requested = some "桃園市" ∧
      (getKaohsiungWeather apiKey upstream).calls = 1) ∧
    (∀ (apiKey : Option String) (upstream : String → UpstreamOutcome),
      (getKaohsiungWeather apiKey upstream).requested ≠ some "高雄市") ∧
    (∀ (apiKey : Option String) (upstream : String → UpstreamOutcome)
      (records : Records),
      isFalsyEnv apiKey = false →
      upstream "桃園市" = .ok records →
      records.location = some [] →
      (getKaohsiungWeather apiKey upstream).response =
        { status := 404,
          body := .failure "查無資料" (some "無法取得桃園市天氣資料") none } ∧
      ∃ p q, "無法取得桃園市天氣資料" = p ++ "桃園市" ++ q) := by
  have hreq : ∀ (apiKey : Option String) (upstream : String → UpstreamOutcome),
      (getKaohsiungWeather apiKey upstream).requested = none ∨
      (getKaohsiungWeather apiKey upstream).requested = some "桃園市" := by
    intro apiKey upstream
    cases hkey : isFalsyEnv apiKey <;> simp [getKaohsiungWeather, hkey]
  refine ⟨hreq, ?_, ?_, ?_⟩
  · intro apiKey upstream hkey
    simp [getKaohsiungWeather, hkey]
  · intro apiKey upstream hcontra
    rcases hreq apiKey upstream with h | h <;> rw [h] at hcontra <;> simp at hcontra
  · intro apiKey upstream records hkey hup hloc
    refine ⟨?_, ⟨"無法取得", "天氣資料", rfl⟩⟩
    simp [getKaohsiungWeather, hkey, hup, hloc]

/-- Witness for C10 at a concrete empty-location document. -/
theorem getKaohsiungWeather_requests_taoyuan_c10_witness :
    (getKaohsiungWeather (some "k") (fun _ => .ok ⟨"d", some []⟩)).response =
      { status := 404,
        body := .failure "查無資料" (some "無法取得桃園市天氣資料") none } ∧
    ∃ p q, "無法取得桃園市天氣資料" = p ++ "桃園市" ++ q :=
  getKaohsiungWeather_requests_taoyuan_c10.2.2.2 (some "k")
    (fun _ => .ok ⟨"d", some []⟩) ⟨"d", some []⟩ (by decide) rfl rfl


end WeatherBackend
